import Mathlib

/-!
Shallow embedding of the meowt-moderation-bot repository, for checking its
natural-language specification against the code.

Sources embedded here:
* `src/src/moderate.ts`      — multi-provider orchestrator (Perspective + OpenAI)
* `src/moderator.mjs`        — single-run moderator bot (Perspective only)
* `src/unnamed/part_003`     — moderator variant with language-aware attribute retries
* `src/unnamed/part_004`     — moderator variant whose inline-text branch keeps the
                               raw payload when percent-decoding fails

JavaScript strings are modelled as `List Char` (one entry per UTF-16 unit for the
ASCII/BMP inputs the theorems use), JS numbers that hold classifier scores and
thresholds as `ℚ` (the source compares them only with `>=`, which is
representation-independent), and network / ledger effects as explicit oracles
passed into the embedded functions.
-/

namespace Meowt

/-! ### Score records

`PerspectiveScoresTS` mirrors the seven-attribute record built by
`getPerspectiveScores` in `src/src/moderate.ts`; `ScoresM` mirrors the
six-attribute record built by `perspectiveScores` in `src/moderator.mjs`
and `src/unnamed/part_003`. -/

structure PerspectiveScoresTS where
  TOXICITY : ℚ
  SEVERE_TOXICITY : ℚ
  INSULT : ℚ
  THREAT : ℚ
  IDENTITY_ATTACK : ℚ
  SEXUALLY_EXPLICIT : ℚ
  PROFANITY : ℚ
deriving DecidableEq, Repr

structure ScoresM where
  TOXICITY : ℚ
  INSULT : ℚ
  THREAT : ℚ
  SEXUALLY_EXPLICIT : ℚ
  PROFANITY : ℚ
  IDENTITY_ATTACK : ℚ
deriving DecidableEq, Repr

/-- The JSON `attributeScores` object of a Perspective response, modelled as an
association list from attribute name to `summaryScore.value`.  A missing key
models `data?.attributeScores?.[k]?.summaryScore?.value` being absent. -/
def AttrJson : Type := List (String × ℚ)

/-- `src/src/moderate.ts` lines 75–85: `g = (k) => data?.attributeScores?.[k]?.summaryScore?.value ?? 0`,
then the seven-field record is assembled from `g`. -/
def buildScoresTS (data : AttrJson) : PerspectiveScoresTS :=
  let g := fun (k : String) => ((data.lookup k).getD 0)
  { TOXICITY := g "TOXICITY"
    SEVERE_TOXICITY := g "SEVERE_TOXICITY"
    INSULT := g "INSULT"
    THREAT := g "THREAT"
    IDENTITY_ATTACK := g "IDENTITY_ATTACK"
    SEXUALLY_EXPLICIT := g "SEXUALLY_EXPLICIT"
    PROFANITY := g "PROFANITY" }

/-- `src/moderator.mjs` lines 159–168 (also `src/unnamed/part_003` lines 172–181):
`take = (k) => Number(attr?.[k]?.summaryScore?.value ?? 0)` assembling the
six-field record. -/
def buildScoresM (attr : AttrJson) : ScoresM :=
  let take := fun (k : String) => ((attr.lookup k).getD 0)
  { TOXICITY := take "TOXICITY"
    INSULT := take "INSULT"
    THREAT := take "THREAT"
    SEXUALLY_EXPLICIT := take "SEXUALLY_EXPLICIT"
    PROFANITY := take "PROFANITY"
    IDENTITY_ATTACK := take "IDENTITY_ATTACK" }

/-- The seven attributes requested by `getPerspectiveScores` in `src/src/moderate.ts`. -/
def SEVEN_ATTRS : List String :=
  ["TOXICITY", "SEVERE_TOXICITY", "INSULT", "THREAT",
   "IDENTITY_ATTACK", "SEXUALLY_EXPLICIT", "PROFANITY"]

/-- Field lookup on the seven-attribute record, by attribute name. -/
def scoreOfTS (s : PerspectiveScoresTS) : String → Option ℚ
  | "TOXICITY" => some s.TOXICITY
  | "SEVERE_TOXICITY" => some s.SEVERE_TOXICITY
  | "INSULT" => some s.INSULT
  | "THREAT" => some s.THREAT
  | "IDENTITY_ATTACK" => some s.IDENTITY_ATTACK
  | "SEXUALLY_EXPLICIT" => some s.SEXUALLY_EXPLICIT
  | "PROFANITY" => some s.PROFANITY
  | _ => none

/-! ### moderate.ts decision engine and orchestrator -/

/-- `ModResult` of `src/src/moderate.ts` lines 4–8 (`provider` is one of
`"perspective"`, `"openai"`, `"none"`). -/
structure ModResultL where
  flagged : Bool
  reasons : List String
  provider : String
deriving DecidableEq, Repr

/-- Renders a score the way the reason strings of `analyzeWithPerspective` do
(`v.toFixed(2)`): the value taken to hundredths, printed with two decimals
(computed on `num`/`den` directly so it evaluates in the kernel).  Only the
shape of the string matters to the theorems, never its exact digits. -/
def toFixed2 (v : ℚ) : String :=
  let c : Int := (v.num * 100) / (v.den : Int)
  let whole := c / 100
  let frac := (c % 100).toNat
  toString whole ++ "." ++ (if frac < 10 then "0" else "") ++ toString frac

/-- The threshold block of `analyzeWithPerspective` (`src/src/moderate.ts`
lines 95–108), applied to an already-obtained score record.  `tSevere` and
`tTox` are the env-configurable `PERSPECTIVE_SEVERE_THRESHOLD` and
`PERSPECTIVE_THRESHOLD`; the remaining five thresholds are the source's
literals.  Each satisfied comparison pushes one reason, in source order, and
`flagged` is `reasons.length > 0`. -/
def perspectiveEval (tTox tSevere : ℚ) (s : PerspectiveScoresTS) : ModResultL :=
  let reasons : List String :=
    (if s.SEVERE_TOXICITY ≥ tSevere then ["SEVERE_TOXICITY=" ++ toFixed2 s.SEVERE_TOXICITY] else [])
    ++ (if s.TOXICITY ≥ tTox then ["TOXICITY=" ++ toFixed2 s.TOXICITY] else [])
    ++ (if s.THREAT ≥ mkRat 80 100 then ["THREAT=" ++ toFixed2 s.THREAT] else [])
    ++ (if s.INSULT ≥ mkRat 90 100 then ["INSULT=" ++ toFixed2 s.INSULT] else [])
    ++ (if s.PROFANITY ≥ mkRat 95 100 then ["PROFANITY=" ++ toFixed2 s.PROFANITY] else [])
    ++ (if s.SEXUALLY_EXPLICIT ≥ mkRat 90 100 then ["SEXUALLY_EXPLICIT=" ++ toFixed2 s.SEXUALLY_EXPLICIT] else [])
    ++ (if s.IDENTITY_ATTACK ≥ mkRat 80 100 then ["IDENTITY_ATTACK=" ++ toFixed2 s.IDENTITY_ATTACK] else [])
  { flagged := decide (0 < reasons.length), reasons := reasons, provider := "perspective" }

/-- Outcome of `analyzeWithPerspective`'s call to
`getPerspectiveScores(text).catch(() => null)`: `none` models every path that
yields `null` (missing key, non-ok response, rejected fetch, bad json). -/
def analyzeWithPerspectiveL (tTox tSevere : ℚ) (scores : Option PerspectiveScoresTS) : ModResultL :=
  match scores with
  | none => { flagged := false, reasons := ["perspective: unavailable"], provider := "perspective" }
  | some s => perspectiveEval tTox tSevere s

/-- The observable outcomes of `analyzeWithOpenAI` (`src/src/moderate.ts`
lines 113–142): missing key, failed/non-ok fetch, empty results array, or a
result carrying the service's `flagged` bit and its triggered category keys. -/
inductive OpenAIOutcome where
  | noKey
  | unavailable
  | empty
  | result (flagged : Bool) (cats : List String)
deriving DecidableEq, Repr

/-- `analyzeWithOpenAI`: reasons for a real result are the truthy category
keys rendered as `OPENAI:<k>`; `flagged` is taken from the response, not from
the reasons. -/
def analyzeWithOpenAIL (o : OpenAIOutcome) : ModResultL :=
  match o with
  | .noKey => { flagged := false, reasons := ["openai: no key"], provider := "openai" }
  | .unavailable => { flagged := false, reasons := ["openai: unavailable"], provider := "openai" }
  | .empty => { flagged := false, reasons := ["openai: empty"], provider := "openai" }
  | .result f cats => { flagged := f, reasons := cats.map (fun k => "OPENAI:" ++ k), provider := "openai" }

/-- One run's provider environment: what each adapter would observe if invoked. -/
structure ModEnv where
  perspective : Option PerspectiveScoresTS
  openai : OpenAIOutcome

/-- `moderateText` (`src/src/moderate.ts` lines 146–165) over a configured
provider order, also returning the list of adapters actually invoked (for each
loop iteration that reaches an adapter call).  Identifiers other than
`"perspective"`/`"openai"` match neither `if` and fall through with no call;
after the loop the no-provider fallback is returned. -/
def moderateTextL (tTox tSevere : ℚ) (env : ModEnv) : List String → ModResultL × List String
  | [] => ({ flagged := false, reasons := ["no provider configured"], provider := "none" }, [])
  | p :: rest =>
    if p = "perspective" then
      let r := analyzeWithPerspectiveL tTox tSevere env.perspective
      if r.reasons.contains "perspective: unavailable" then
        let next := moderateTextL tTox tSevere env rest
        (next.1, "perspective" :: next.2)
      else (r, ["perspective"])
    else if p = "openai" then
      let r := analyzeWithOpenAIL env.openai
      if r.reasons.contains "openai: no key" || r.reasons.contains "openai: unavailable" then
        let next := moderateTextL tTox tSevere env rest
        (next.1, "openai" :: next.2)
      else (r, ["openai"])
    else moderateTextL tTox tSevere env rest

/-! ### Content resolver (`getTextFromUri`)

The resolver works on JS strings; we model them as `List Char`.  Network
fetches are an oracle `FetchEnv.fetch : url → Option body` where `some body`
is a response with `r.ok` true and body text `body`, and `none` covers thrown
fetches, timeouts and non-ok statuses (all of which the source treats alike:
skip to the next candidate). -/

/-- Shorthand: the character list of a string literal. -/
def strL (s : String) : List Char := s.toList

/-- `String.prototype.startsWith`, on character lists. -/
def isPrefixOfL : List Char → List Char → Bool
  | _ :: _, [] => false
  | [], _ => true
  | p :: ps, c :: cs => p == c && isPrefixOfL ps cs

/-- Value of a hexadecimal digit, as used by percent-escapes (digits are code
points 48–57, uppercase 65–70, lowercase 97–102). -/
def hexVal (c : Char) : Option Nat :=
  let n := c.toNat
  if 48 ≤ n ∧ n ≤ 57 then some (n - 48)
  else if 65 ≤ n ∧ n ≤ 70 then some (n - 55)
  else if 97 ≤ n ∧ n ≤ 102 then some (n - 87)
  else none

/-- Is `b` a UTF-8 continuation byte (`0x80..0xBF`)? -/
def contByte (b : Nat) : Bool := 128 ≤ b && b < 192

/-- Fuel-indexed core of `decodeURIComponent` (ECMA-262 `Decode`): literal
characters pass through; a `%` must start `%XX` hex escapes forming a valid
UTF-8 sequence (1–4 bytes, no overlong forms, no surrogates), else the
whole decode fails (JS throws `URIError`).  The fuel only bounds recursion;
each step consumes at least one character, so fuel `≥ length` never runs out. -/
def percentDecodeAux : Nat → List Char → Option (List Char)
  | _, [] => some []
  | 0, _ :: _ => none
  | fuel+1, c :: rest =>
    if c = '%' then
      match rest with
      | c1 :: c2 :: rest2 =>
        match hexVal c1, hexVal c2 with
        | some h1, some h2 =>
          let b := h1 * 16 + h2
          if b < 128 then
            (Char.ofNat b :: ·) <$> percentDecodeAux fuel rest2
          else if 194 ≤ b ∧ b ≤ 223 then
            match rest2 with
            | '%' :: d1 :: d2 :: rest3 =>
              match hexVal d1, hexVal d2 with
              | some g1, some g2 =>
                let b2 := g1 * 16 + g2
                if contByte b2 then
                  (Char.ofNat ((b - 192) * 64 + (b2 - 128)) :: ·) <$> percentDecodeAux fuel rest3
                else none
              | _, _ => none
            | _ => none
          else if 224 ≤ b ∧ b ≤ 239 then
            match rest2 with
            | '%' :: d1 :: d2 :: '%' :: e1 :: e2 :: rest3 =>
              match hexVal d1, hexVal d2, hexVal e1, hexVal e2 with
              | some g1, some g2, some k1, some k2 =>
                let b2 := g1 * 16 + g2
                let b3 := k1 * 16 + k2
                let cp := (b - 224) * 4096 + (b2 - 128) * 64 + (b3 - 128)
                if contByte b2 && contByte b3 && 2048 ≤ cp && !(55296 ≤ cp && cp ≤ 57343) then
                  (Char.ofNat cp :: ·) <$> percentDecodeAux fuel rest3
                else none
              | _, _, _, _ => none
            | _ => none
          else if 240 ≤ b ∧ b ≤ 244 then
            match rest2 with
            | '%' :: d1 :: d2 :: '%' :: e1 :: e2 :: '%' :: f1 :: f2 :: rest3 =>
              match hexVal d1, hexVal d2, hexVal e1, hexVal e2, hexVal f1, hexVal f2 with
              | some g1, some g2, some k1, some k2, some m1, some m2 =>
                let b2 := g1 * 16 + g2
                let b3 := k1 * 16 + k2
                let b4 := m1 * 16 + m2
                let cp := (b - 240) * 262144 + (b2 - 128) * 4096 + (b3 - 128) * 64 + (b4 - 128)
                if contByte b2 && contByte b3 && contByte b4 && 65536 ≤ cp && cp ≤ 1114111 then
                  (Char.ofNat cp :: ·) <$> percentDecodeAux fuel rest3
                else none
              | _, _, _, _, _, _ => none
            | _ => none
          else none
        | _, _ => none
      | _ => none
    else (c :: ·) <$> percentDecodeAux fuel rest

/-- `decodeURIComponent`, as `Option`: `none` models the thrown `URIError`. -/
def decodeURIComponentOpt (l : List Char) : Option (List Char) :=
  percentDecodeAux l.length l

/-- Value of a base64-alphabet character (Node's decoder skips others):
uppercase 65–90 map to 0–25, lowercase 97–122 to 26–51, digits 48–57 to
52–61, then `+` and `/`. -/
def b64Val (c : Char) : Option Nat :=
  let n := c.toNat
  if 65 ≤ n ∧ n ≤ 90 then some (n - 65)
  else if 97 ≤ n ∧ n ≤ 122 then some (n - 71)
  else if 48 ≤ n ∧ n ≤ 57 then some (n + 4)
  else if n = 43 then some 62
  else if n = 47 then some 63
  else none

/-- Groups of four 6-bit values into three bytes (trailing 3 values give two
bytes, 2 give one, a lone value is dropped — Node `Buffer.from(_, 'base64')`). -/
def b64Chunks : List Nat → List Nat
  | a :: b :: c :: d :: rest =>
    (a * 4 + b / 16) :: ((b % 16) * 16 + c / 4) :: ((c % 4) * 64 + d) :: b64Chunks rest
  | [a, b, c] => [a * 4 + b / 16, (b % 16) * 16 + c / 4]
  | [a, b] => [a * 4 + b / 16]
  | [_] => []
  | [] => []

/-- Bytes of a base64 payload. -/
def b64DecodeBytes (l : List Char) : List Nat := b64Chunks (l.filterMap b64Val)

/-- Lossy UTF-8 decoding (Node `buffer.toString('utf8')`): malformed bytes
become U+FFFD.  Fuel-indexed; each step consumes at least one byte. -/
def utf8Lossy : Nat → List Nat → List Char
  | _, [] => []
  | 0, _ :: _ => []
  | fuel+1, b :: rest =>
    if b < 128 then Char.ofNat b :: utf8Lossy fuel rest
    else if 194 ≤ b ∧ b ≤ 223 then
      match rest with
      | b2 :: rest2 =>
        if contByte b2 then Char.ofNat ((b - 192) * 64 + (b2 - 128)) :: utf8Lossy fuel rest2
        else '�' :: utf8Lossy fuel rest
      | [] => ['�']
    else if 224 ≤ b ∧ b ≤ 239 then
      match rest with
      | b2 :: b3 :: rest2 =>
        let cp := (b - 224) * 4096 + (b2 - 128) * 64 + (b3 - 128)
        if contByte b2 && contByte b3 && 2048 ≤ cp && !(55296 ≤ cp && cp ≤ 57343) then
          Char.ofNat cp :: utf8Lossy fuel rest2
        else '�' :: utf8Lossy fuel rest
      | _ => ['�']
    else if 240 ≤ b ∧ b ≤ 244 then
      match rest with
      | b2 :: b3 :: b4 :: rest2 =>
        let cp := (b - 240) * 262144 + (b2 - 128) * 4096 + (b3 - 128) * 64 + (b4 - 128)
        if contByte b2 && contByte b3 && contByte b4 && 65536 ≤ cp && cp ≤ 1114111 then
          Char.ofNat cp :: utf8Lossy fuel rest2
        else '�' :: utf8Lossy fuel rest
      | _ => ['�']
    else '�' :: utf8Lossy fuel rest

/-- `Buffer.from(b64, 'base64').toString('utf8')`. -/
def b64ToUtf8 (l : List Char) : List Char :=
  let bs := b64DecodeBytes l
  utf8Lossy bs.length bs

/-- Case-insensitive prefix test (`p` must already be lowercase):
models `/^https?:\/\//i.test(u)`'s per-character matching. -/
def isPrefixLowerAux : List Char → List Char → Bool
  | [], _ => true
  | _ :: _, [] => false
  | p :: ps, c :: cs => (c.toLower == p) && isPrefixLowerAux ps cs

/-- `/^https?:\/\//i.test(u)`. -/
def isHttpUrlL (u : List Char) : Bool :=
  isPrefixLowerAux (strL "http://") u || isPrefixLowerAux (strL "https://") u

/-- JS whitespace, for `String.prototype.trim`. -/
def isJsWs (c : Char) : Bool :=
  c == ' ' || c == '\t' || c == '\n' || c == '\r' || c == '\x0b' || c == '\x0c' || c == '\xa0'

/-- `text.trim()`. -/
def jsTrim (l : List Char) : List Char :=
  ((l.dropWhile isJsWs).reverse.dropWhile isJsWs).reverse

/-- `String.prototype.replace` with a string pattern: first occurrence only. -/
def replaceFirstL (pat repl : List Char) : List Char → List Char
  | [] => if pat.isEmpty then repl else []
  | c :: rest =>
    if isPrefixOfL pat (c :: rest) then repl ++ (c :: rest).drop pat.length
    else c :: replaceFirstL pat repl rest

/-- `u.slice(7).replace(/^ipfs\//, '')` — the part after `ipfs://`, with one
leading `ipfs/` stripped. -/
def stripIpfsPath (l : List Char) : List Char :=
  if isPrefixOfL (strL "ipfs/") l then l.drop 5 else l

/-- `toHttp` of `src/moderator.mjs` lines 73–76. -/
def toHttpL (u : List Char) : List Char :=
  if isPrefixOfL (strL "ipfs://") u then
    strL "https://ipfs.io/ipfs/" ++ stripIpfsPath (u.drop 7)
  else u

/-- Candidate URL list of `src/moderator.mjs` lines 78–84: three gateways for
`ipfs://`, otherwise the URI itself. -/
def candidatesL (uri : List Char) : List (List Char) :=
  if isPrefixOfL (strL "ipfs://") uri then
    [toHttpL uri,
     replaceFirstL (strL "ipfs.io") (strL "cloudflare-ipfs.com") (toHttpL uri),
     replaceFirstL (strL "ipfs.io") (strL "gateway.pinata.cloud") (toHttpL uri)]
  else [uri]

/-- The network oracle for one run. -/
structure FetchEnv where
  fetch : List Char → Option (List Char)

/-- The candidate loop of `src/moderator.mjs` lines 86–97: skip non-http
candidates; a failed/non-ok/empty-body attempt falls through to the next; the
first ok response with non-blank body is returned `slice`d to 8000. -/
def fetchLoop (env : FetchEnv) : List (List Char) → Option (List Char)
  | [] => none
  | u :: rest =>
    if isHttpUrlL u then
      match env.fetch u with
      | some body =>
        if !body.isEmpty && !(jsTrim body).isEmpty then some (body.take 8000)
        else fetchLoop env rest
      | none => fetchLoop env rest
    else fetchLoop env rest

/-- `getTextFromUri` of `src/moderator.mjs` lines 57–100.  In the inline-text
branch a `URIError` from `decodeURIComponent` escapes to the function's outer
`catch`, which returns `null`. -/
def getTextFromUriMjs (env : FetchEnv) (uri : List Char) : Option (List Char) :=
  if uri.isEmpty then none
  else if isPrefixOfL (strL "meow:text:") uri then
    decodeURIComponentOpt (uri.drop (strL "meow:text:").length)
  else if isPrefixOfL (strL "data:text/plain;base64,") uri then
    some (b64ToUtf8 (uri.drop (strL "data:text/plain;base64,").length))
  else fetchLoop env (candidatesL uri)

/-- `getTextFromUri` of `src/unnamed/part_004` lines 88–132: identical to the
`moderator.mjs` version except that the inline-text branch catches the decode
failure locally and returns the raw payload
(`try { return decodeURIComponent(raw) } catch { return raw }`). -/
def getTextFromUriP4 (env : FetchEnv) (uri : List Char) : Option (List Char) :=
  if uri.isEmpty then none
  else if isPrefixOfL (strL "meow:text:") uri then
    let raw := uri.drop (strL "meow:text:").length
    some ((decodeURIComponentOpt raw).getD raw)
  else if isPrefixOfL (strL "data:text/plain;base64,") uri then
    some (b64ToUtf8 (uri.drop (strL "data:text/plain;base64,").length))
  else fetchLoop env (candidatesL uri)

/-! ### Score provider adapters (error behaviour) -/

/-- What one `fetch` of the classification service can look like from the
adapter: a rejected promise, or a response with its `ok` flag and (for ok
responses) the `attributeScores` summary values. -/
inductive FetchOut where
  | threw
  | resp (ok : Bool) (json : AttrJson)

/-- `getPerspectiveScores` of `src/src/moderate.ts` lines 38–86, as a function
of the configured key and the fetch outcome.  `.ok none` is the `null` return
(missing key, non-ok response); `.error` models the promise rejection that a
thrown `fetch` propagates out of this function (its caller attaches
`.catch(() => null)`). -/
def getPerspectiveScoresTS (hasKey : Bool) (f : FetchOut) : Except String (Option PerspectiveScoresTS) :=
  if !hasKey then .ok none
  else
    match f with
    | .threw => .error "fetch rejected"
    | .resp ok json => if !ok then .ok none else .ok (some (buildScoresTS json))

/-- `perspectiveScores` of `src/moderator.mjs` lines 102–169, restricted to
what happens once a response arrives: a non-ok response makes the function
`throw new Error('Perspective error <status>: …')` (the stringified json of
the source's message is not modelled), an ok response yields the six-field
record. -/
def perspectiveScoresMjsResp (ok : Bool) (status : Nat) (attr : AttrJson) : Except String ScoresM :=
  if !ok then .error ("Perspective error " ++ toString status)
  else .ok (buildScoresM attr)

/-! ### part_003: language-aware attribute retry loop -/

/-- The attribute list first requested by `perspectiveScores` in
`src/unnamed/part_003` lines 109–116. -/
def DEFAULT_ATTRS : List String :=
  ["TOXICITY", "INSULT", "THREAT", "SEXUALLY_EXPLICIT", "PROFANITY", "IDENTITY_ATTACK"]

/-- The all-zero record returned when the attribute set empties
(`src/unnamed/part_003` lines 202–205). -/
def zeroScoresM : ScoresM :=
  { TOXICITY := 0, INSULT := 0, THREAT := 0, SEXUALLY_EXPLICIT := 0,
    PROFANITY := 0, IDENTITY_ATTACK := 0 }

/-- One response of `sendToPerspective`: its `ok`/`status`, the
`attributeScores` values when ok, and — when the 400 body carries a
`LANGUAGE_NOT_SUPPORTED_BY_ATTRIBUTE` detail — the offending attribute found
by the source's `json.error.details.find(...)`. -/
structure PerspResp where
  ok : Bool
  status : Nat
  scores : AttrJson
  badAttr : Option String

/-- Terminal outcomes of the `while (attrs.length)` loop in
`src/unnamed/part_003` `perspectiveScores` (lines 164–206). -/
inductive PerspLoopOut where
  | success (s : ScoresM)
  | threw (status : Nat)
deriving DecidableEq, Repr

/-- The retry loop itself, driven by the sequence of responses the service
returns to the successive requests.  Each iteration consumes one response:
an ok response returns the scores built from it; a 400 carrying an offending
attribute filters that attribute out of the set and retries; any other error
throws.  When the set empties, the all-zero record is returned.  `none` means
the given responses were exhausted with the loop still running (the source
loop would issue yet another request). -/
def perspLoop : List PerspResp → List String → Option PerspLoopOut
  | [], attrs => if attrs.isEmpty then some (.success zeroScoresM) else none
  | r :: rest, attrs =>
    if attrs.isEmpty then some (.success zeroScoresM)
    else if r.ok then some (.success (buildScoresM r.scores))
    else
      match (if r.status = 400 then r.badAttr else none) with
      | some bad => perspLoop rest (attrs.filter (fun a => a != bad))
      | none => some (.threw r.status)

/-- A response sequence is well-behaved for a starting attribute set when
every rejection that triggers the retry branch names an attribute that is in
the set current at that point (which is how the live service answers, since
it only rejects attributes that were requested). -/
def followsAttrs : List PerspResp → List String → Bool
  | [], _ => true
  | r :: rest, attrs =>
    if r.ok then true
    else
      match (if r.status = 400 then r.badAttr else none) with
      | some bad => attrs.contains bad && followsAttrs rest (attrs.filter (fun a => a != bad))
      | none => true

/-! ### Action coordinator: `main` of `src/moderator.mjs` (lines 183–243) -/

/-- The mjs `shouldFlag` (lines 171–181): an inclusive `>=` against each of
the six hard-coded thresholds, combined with `||`. -/
def shouldFlagM (s : ScoresM) : Bool :=
  decide (s.TOXICITY ≥ mkRat 85 100) || decide (s.INSULT ≥ mkRat 80 100)
  || decide (s.THREAT ≥ mkRat 70 100) || decide (s.SEXUALLY_EXPLICIT ≥ mkRat 90 100)
  || decide (s.PROFANITY ≥ mkRat 80 100) || decide (s.IDENTITY_ATTACK ≥ mkRat 75 100)

/-- The ledger operations one run performs, in order.  A `readModFlagged`
records the value the ledger returned; a `writeSetModerationFlag` records the
ledger's actual flagged state at the instant the mutating call is issued
(what one more read just before the call would have seen). -/
inductive LedgerOp where
  | readActiveId
  | readMessages
  | readModFlagged (result : Bool)
  | writeSetModerationFlag (ledgerFlaggedNow : Bool)
deriving DecidableEq, Repr

/-- Outcomes of one run of `main` (success paths `return`; the two `throw`
sites and a thrown `perspectiveScores` are caught by `main().catch`, which
logs and exits non-zero). -/
inductive MainOutcome where
  | noActiveItem
  | alreadyResolved
  | alreadyFlagged
  | noRetrievableText
  | passed
  | flaggedDone
  | errored (msg : String)
deriving DecidableEq, Repr

/-- Everything external one run can observe: the chain reads, the network,
the scoring call's outcome, and the transaction receipt. -/
structure ChainEnv where
  activeId : Nat
  msgResolved : Bool
  msgUri : List Char
  modFlaggedFirstRead : Bool
  modFlaggedAtWrite : Bool
  fetchEnv : FetchEnv
  perspOutcome : Except String ScoresM
  receiptSuccess : Bool

/-- `main` of `src/moderator.mjs` lines 183–243, with its ledger-operation
trace.  Step order is the source's: read active id; read the message record
and `modFlagged` together; short-circuit on `resolved` then on `flagged`;
resolve text; score; decide; write and await the receipt.  The flagged state
is never read a second time. -/
def mainMjs (env : ChainEnv) : MainOutcome × List LedgerOp :=
  let t1 : List LedgerOp := [.readActiveId]
  if env.activeId = 0 then (.noActiveItem, t1)
  else
    let t2 := t1 ++ [.readMessages, .readModFlagged env.modFlaggedFirstRead]
    if env.msgResolved then (.alreadyResolved, t2)
    else if env.modFlaggedFirstRead then (.alreadyFlagged, t2)
    else
      match getTextFromUriMjs env.fetchEnv env.msgUri with
      | none => (.noRetrievableText, t2)
      | some text =>
        if text.isEmpty || (jsTrim text).isEmpty then (.noRetrievableText, t2)
        else
          match env.perspOutcome with
          | .error e => (.errored e, t2)
          | .ok scores =>
            if !shouldFlagM scores then (.passed, t2)
            else
              let t3 := t2 ++ [.writeSetModerationFlag env.modFlaggedAtWrite]
              if env.receiptSuccess then (.flaggedDone, t3)
              else (.errored "Flag tx reverted.", t3)

/-- Is an operation the mutating call? -/
def isWriteOp : LedgerOp → Bool
  | .writeSetModerationFlag _ => true
  | _ => false

/-- Is an operation a read of the flagged state? -/
def isFlaggedReadOp : LedgerOp → Bool
  | .readModFlagged _ => true
  | _ => false

/-! ### Concrete run environments used by counterexamples and witnesses -/

/-- A run in which the ledger's flagged state becomes true after the single
`modFlagged` read but before the write lands: inline toxic text, scores over
threshold, receipt ok. -/
def c1Env : ChainEnv :=
  { activeId := 1
    msgResolved := false
    msgUri := strL "meow:text:hate%20speech"
    modFlaggedFirstRead := false
    modFlaggedAtWrite := true
    fetchEnv := { fetch := fun _ => none }
    perspOutcome := Except.ok
      { TOXICITY := mkRat 99 100, INSULT := 0, THREAT := 0,
        SEXUALLY_EXPLICIT := 0, PROFANITY := 0, IDENTITY_ATTACK := 0 }
    receiptSuccess := true }

/-- A run that flags with no concurrent interference. -/
def c1wEnv : ChainEnv :=
  { activeId := 1
    msgResolved := false
    msgUri := strL "meow:text:hate%20speech"
    modFlaggedFirstRead := false
    modFlaggedAtWrite := false
    fetchEnv := { fetch := fun _ => none }
    perspOutcome := Except.ok
      { TOXICITY := mkRat 99 100, INSULT := 0, THREAT := 0,
        SEXUALLY_EXPLICIT := 0, PROFANITY := 0, IDENTITY_ATTACK := 0 }
    receiptSuccess := true }

/-- A flagging run used to witness the single-write invariant. -/
def c2Env : ChainEnv :=
  { activeId := 7
    msgResolved := false
    msgUri := strL "meow:text:really%20bad"
    modFlaggedFirstRead := false
    modFlaggedAtWrite := false
    fetchEnv := { fetch := fun _ => none }
    perspOutcome := Except.ok
      { TOXICITY := 0, INSULT := 0, THREAT := mkRat 95 100,
        SEXUALLY_EXPLICIT := 0, PROFANITY := 0, IDENTITY_ATTACK := 0 }
    receiptSuccess := true }

/-- Both providers unavailable: Perspective yields `null`, OpenAI has no key. -/
def c3Env : ModEnv := { perspective := none, openai := OpenAIOutcome.noKey }

/-! ### Helper lemmas -/

/-- A percent-free string percent-decodes to itself. -/
theorem percentDecodeAux_of_not_mem :
    ∀ (fuel : Nat) (l : List Char), l.length ≤ fuel → '%' ∉ l →
      percentDecodeAux fuel l = some l := by
  intro fuel
  induction fuel with
  | zero =>
    intro l hl _
    have : l = [] := List.eq_nil_of_length_eq_zero (Nat.le_zero.mp hl)
    subst this
    rfl
  | succ n ih =>
    intro l hl hm
    cases l with
    | nil => rfl
    | cons c rest =>
      have hc : ¬ (c = '%') := fun h => hm (h ▸ List.mem_cons_self c rest)
      have hrest : percentDecodeAux n rest = some rest :=
        ih rest (Nat.le_of_succ_le_succ (by simpa using hl))
          (fun h => hm (List.mem_cons_of_mem _ h))
      simp [percentDecodeAux, hc, hrest]

/-- `decodeURIComponent` is the identity on percent-free payloads. -/
theorem decodeURIComponentOpt_of_not_mem (l : List Char) (h : '%' ∉ l) :
    decodeURIComponentOpt l = some l :=
  percentDecodeAux_of_not_mem l.length l Nat.le.refl h

/-- The `meow:text:` branch of the mjs resolver returns the percent decode,
made `null` by the outer catch when decoding fails. -/
theorem getTextFromUriMjs_meow (env : FetchEnv) (payload : List Char) :
    getTextFromUriMjs env (strL "meow:text:" ++ payload) =
      decodeURIComponentOpt payload := rfl

/-- The `meow:text:` branch of the part_004 resolver returns the percent
decode, falling back to the raw payload when decoding fails. -/
theorem getTextFromUriP4_meow (env : FetchEnv) (payload : List Char) :
    getTextFromUriP4 env (strL "meow:text:" ++ payload) =
      some ((decodeURIComponentOpt payload).getD payload) := rfl

/-- The `data:text/plain;base64,` branch returns the decoded payload with no
truncation. -/
theorem getTextFromUriMjs_data (env : FetchEnv) (payload : List Char) :
    getTextFromUriMjs env (strL "data:text/plain;base64," ++ payload) =
      some (b64ToUtf8 payload) := rfl

/-- An empty list trims to an empty list. -/
theorem jsTrim_nil : jsTrim ([] : List Char) = [] := rfl

/-- The plain-http branch returns the fetched body `slice`d to 8000. -/
theorem getTextFromUriMjs_http (env : FetchEnv) (tail body : List Char)
    (hf : env.fetch (strL "http://" ++ tail) = some body)
    (hb : (jsTrim body).isEmpty = false) :
    getTextFromUriMjs env (strL "http://" ++ tail) = some (body.take 8000) := by
  have h0 : getTextFromUriMjs env (strL "http://" ++ tail) =
      fetchLoop env [strL "http://" ++ tail] := rfl
  have hhttp : isHttpUrlL (strL "http://" ++ tail) = true := rfl
  have hbody : body.isEmpty = false := by
    cases body with
    | nil => simp [jsTrim_nil] at hb
    | cons c rest => rfl
  rw [h0]
  simp [fetchLoop, hhttp, hf, hbody, hb]

/-- Removing a present element strictly shrinks a list. -/
theorem length_filter_bne_lt {bad : String} :
    ∀ {attrs : List String}, bad ∈ attrs →
      (attrs.filter (fun a => a != bad)).length < attrs.length := by
  intro attrs h
  induction attrs with
  | nil => cases h
  | cons a as ih =>
    by_cases hab : a = bad
    · subst hab
      simp only [List.filter, bne_self_eq_false]
      exact Nat.lt_succ_of_le (List.length_filter_le _ _)
    · have hb : bad ∈ as := by
        rcases List.mem_cons.mp h with h' | h'
        · exact absurd h'.symm hab
        · exact h'
      have hne : (a != bad) = true := bne_iff_ne.mpr hab
      simp only [List.filter, hne, List.length_cons]
      exact Nat.succ_lt_succ (ih hb)

/-- The retry loop reaches a terminal outcome within `attrs.length + 1`
responses, provided every retry response names an attribute of the then
current request. -/
theorem perspLoop_isSome_of_follows :
    ∀ (resps : List PerspResp) (attrs : List String),
      followsAttrs resps attrs = true → attrs.length < resps.length →
      (perspLoop resps attrs).isSome = true := by
  intro resps
  induction resps with
  | nil =>
    intro attrs _ hlen
    exact absurd hlen (Nat.not_lt_zero _)
  | cons r rest ih =>
    intro attrs hf hlen
    by_cases he : attrs.isEmpty
    · simp [perspLoop, he]
    · simp only [perspLoop, he, if_false, Bool.false_eq_true]
      by_cases hok : r.ok
      · simp [hok]
      · simp only [hok, if_false, Bool.false_eq_true]
        cases hcase : (if r.status = 400 then r.badAttr else none) with
        | none => simp
        | some bad =>
          have hf' : (attrs.contains bad && followsAttrs rest (attrs.filter (fun a => a != bad))) = true := by
            simpa [followsAttrs, hok, hcase] using hf
          have hmem : bad ∈ attrs := List.elem_iff.mp (Bool.and_eq_true_iff.mp hf').1
          have hrest : followsAttrs rest (attrs.filter (fun a => a != bad)) = true :=
            (Bool.and_eq_true_iff.mp hf').2
          have hlen' : (attrs.filter (fun a => a != bad)).length < rest.length := by
            have h1 : (attrs.filter (fun a => a != bad)).length < attrs.length :=
              length_filter_bne_lt hmem
            have h2 : attrs.length ≤ rest.length := Nat.lt_succ_iff.mp (by simpa using hlen)
            omega
          exact ih (attrs.filter (fun a => a != bad)) hrest hlen'

/-! ### Claim theorems -/

/-- C1 (counterexample): the claim that every run reaching the decision to
flag re-reads the flagged state immediately before the mutating call, and
never issues the call while that state is true, is false of `main` in
`src/moderator.mjs`: in the run `c1Env` the ledger's flagged state is already
true when the write is issued, the run still submits the transaction and ends
`Flagged`, and its trace contains exactly one read of the flagged state — the
early one, which returned false. -/
theorem C1_counterexample :
    (mainMjs c1Env).1 = MainOutcome.flaggedDone ∧
    LedgerOp.writeSetModerationFlag true ∈ (mainMjs c1Env).2 ∧
    List.filter isFlaggedReadOp (mainMjs c1Env).2 = [LedgerOp.readModFlagged false] := by
  decide

/-- C1 (amended): `main` reads the flagged state at most once per run (in
step 2, before text resolution), and a mutating call is issued only when that
single read returned false; the call is issued against whatever the ledger's
flagged state then happens to be — there is no re-read immediately before it,
so a concurrent flagging between the read and write does not stop the
duplicate submission. -/
theorem C1_single_early_flag_read :
    ∀ env : ChainEnv,
      (List.filter isFlaggedReadOp (mainMjs env).2).length ≤ 1 ∧
      (∀ b : Bool, LedgerOp.writeSetModerationFlag b ∈ (mainMjs env).2 →
        env.modFlaggedFirstRead = false ∧ b = env.modFlaggedAtWrite) := by
  intro env
  unfold mainMjs
  repeat' split
  all_goals simp_all [isFlaggedReadOp]

/-- C1 (witness): the amended theorem applied to the concrete flagging run
`c1wEnv`, which does issue the mutating call. -/
theorem C1_witness :
    c1wEnv.modFlaggedFirstRead = false ∧ false = c1wEnv.modFlaggedAtWrite :=
  (C1_single_early_flag_read c1wEnv).2 false (by decide)

/-- C2: each invocation of `main` in `src/moderator.mjs` issues at most one
`setModerationFlag` call, regardless of how many thresholds were exceeded,
and issues one only when its pre-call reads showed the item neither already
resolved nor already flagged. -/
theorem C2_at_most_one_write :
    ∀ env : ChainEnv,
      (List.filter isWriteOp (mainMjs env).2).length ≤ 1 ∧
      (∀ b : Bool, LedgerOp.writeSetModerationFlag b ∈ (mainMjs env).2 →
        env.msgResolved = false ∧ env.modFlaggedFirstRead = false) := by
  intro env
  unfold mainMjs
  repeat' split
  all_goals simp_all [isWriteOp]

/-- C2 (witness): the theorem applied to the concrete flagging run `c2Env`. -/
theorem C2_witness :
    c2Env.msgResolved = false ∧ c2Env.modFlaggedFirstRead = false :=
  (C2_at_most_one_write c2Env).2 false (by decide)

/-- C3 (counterexample): with every configured provider unavailable,
`moderateText` returns the fallback verdict whose reason string is
`"no provider configured"`, not the claimed `"no provider available"`. -/
theorem C3_counterexample :
    (moderateTextL (mkRat 83 100) (mkRat 50 100) c3Env ["perspective", "openai"]).1
        = { flagged := false, reasons := ["no provider configured"], provider := "none" } ∧
    (moderateTextL (mkRat 83 100) (mkRat 50 100) c3Env ["perspective", "openai"]).1
        ≠ { flagged := false, reasons := ["no provider available"], provider := "none" } := by
  decide

/-- C3 (amended): for every input and configured order, if Perspective is
unavailable (`getPerspectiveScores` yields `null`) and OpenAI is unavailable
or keyless, `moderateText` returns exactly
`{flagged: false, reasons: ["no provider configured"], provider: "none"}`
(including the degenerate empty order); absence of signal never flags. -/
theorem C3_all_unavailable_fallback :
    ∀ (tTox tSevere : ℚ) (env : ModEnv) (order : List String),
      env.perspective = none →
      (env.openai = OpenAIOutcome.noKey ∨ env.openai = OpenAIOutcome.unavailable) →
      (moderateTextL tTox tSevere env order).1 =
        { flagged := false, reasons := ["no provider configured"], provider := "none" } := by
  intro tT tS env order hp ho
  induction order with
  | nil => rfl
  | cons p rest ih =>
    by_cases h1 : p = "perspective"
    · simp only [moderateTextL, h1, if_pos rfl, hp]
      simpa [analyzeWithPerspectiveL] using ih
    · by_cases h2 : p = "openai"
      · rcases ho with ho | ho <;>
          · simp only [moderateTextL, h1, h2, if_pos rfl, if_neg h1, ho]
            simpa [analyzeWithOpenAIL] using ih
      · simpa [moderateTextL, h1, h2] using ih

/-- C3 (witness): the amended theorem applied to the empty order with both
providers unavailable. -/
theorem C3_witness :
    (moderateTextL (mkRat 83 100) (mkRat 50 100)
        { perspective := none, openai := OpenAIOutcome.unavailable } []).1 =
      { flagged := false, reasons := ["no provider configured"], provider := "none" } :=
  C3_all_unavailable_fallback (mkRat 83 100) (mkRat 50 100)
    { perspective := none, openai := OpenAIOutcome.unavailable } [] rfl (Or.inr rfl)

/-- C4: for every score record and thresholds, the Perspective decision block
of `src/src/moderate.ts` flags iff at least one attribute's score meets or
exceeds its threshold (inclusive `>=`); `flagged` is true iff the reasons
sequence is non-empty; scores strictly below every threshold never flag. -/
theorem C4_threshold_decision :
    ∀ (tTox tSevere : ℚ) (s : PerspectiveScoresTS),
      ((perspectiveEval tTox tSevere s).flagged = true ↔
        (perspectiveEval tTox tSevere s).reasons ≠ []) ∧
      ((perspectiveEval tTox tSevere s).flagged = true ↔
        (tSevere ≤ s.SEVERE_TOXICITY ∨ tTox ≤ s.TOXICITY ∨ mkRat 80 100 ≤ s.THREAT ∨
          mkRat 90 100 ≤ s.INSULT ∨ mkRat 95 100 ≤ s.PROFANITY ∨
          mkRat 90 100 ≤ s.SEXUALLY_EXPLICIT ∨ mkRat 80 100 ≤ s.IDENTITY_ATTACK)) ∧
      ((s.SEVERE_TOXICITY < tSevere ∧ s.TOXICITY < tTox ∧ s.THREAT < mkRat 80 100 ∧
          s.INSULT < mkRat 90 100 ∧ s.PROFANITY < mkRat 95 100 ∧
          s.SEXUALLY_EXPLICIT < mkRat 90 100 ∧ s.IDENTITY_ATTACK < mkRat 80 100) →
        (perspectiveEval tTox tSevere s).flagged = false) := by
  intro tT tS s
  have key : ((perspectiveEval tT tS s).flagged = true ↔
      (perspectiveEval tT tS s).reasons ≠ []) ∧
      ((perspectiveEval tT tS s).flagged = true ↔
        (tS ≤ s.SEVERE_TOXICITY ∨ tT ≤ s.TOXICITY ∨ mkRat 80 100 ≤ s.THREAT ∨
          mkRat 90 100 ≤ s.INSULT ∨ mkRat 95 100 ≤ s.PROFANITY ∨
          mkRat 90 100 ≤ s.SEXUALLY_EXPLICIT ∨ mkRat 80 100 ≤ s.IDENTITY_ATTACK)) := by
    simp only [perspectiveEval]
    split_ifs <;> simp_all
  refine ⟨key.1, key.2, fun h => ?_⟩
  cases hfl : (perspectiveEval tT tS s).flagged with
  | false => rfl
  | true =>
    exfalso
    rcases key.2.mp hfl with hc | hc | hc | hc | hc | hc | hc
    · exact absurd hc (not_le.mpr h.1)
    · exact absurd hc (not_le.mpr h.2.1)
    · exact absurd hc (not_le.mpr h.2.2.1)
    · exact absurd hc (not_le.mpr h.2.2.2.1)
    · exact absurd hc (not_le.mpr h.2.2.2.2.1)
    · exact absurd hc (not_le.mpr h.2.2.2.2.2.1)
    · exact absurd hc (not_le.mpr h.2.2.2.2.2.2)

/-- C4 (witness): the theorem applied to a record with every score strictly
below its threshold, concluding no flag. -/
theorem C4_witness :
    (perspectiveEval (mkRat 83 100) (mkRat 50 100)
      { TOXICITY := mkRat 82 100, SEVERE_TOXICITY := mkRat 49 100,
        INSULT := mkRat 89 100, THREAT := mkRat 79 100,
        IDENTITY_ATTACK := mkRat 79 100, SEXUALLY_EXPLICIT := mkRat 89 100,
        PROFANITY := mkRat 94 100 }).flagged = false :=
  (C4_threshold_decision (mkRat 83 100) (mkRat 50 100)
    { TOXICITY := mkRat 82 100, SEVERE_TOXICITY := mkRat 49 100,
      INSULT := mkRat 89 100, THREAT := mkRat 79 100,
      IDENTITY_ATTACK := mkRat 79 100, SEXUALLY_EXPLICIT := mkRat 89 100,
      PROFANITY := mkRat 94 100 }).2.2 (by decide)

/-- C9: `moderateText` skips every provider identifier other than
`"perspective"` and `"openai"` without invoking any adapter, and an order of
only such identifiers produces the same fallback as the empty order:
`{flagged: false, reasons: ["no provider configured"], provider: "none"}`
with an empty adapter-invocation trace. -/
theorem C9_unknown_identifiers_skipped :
    ∀ (tTox tSevere : ℚ) (env : ModEnv) (order : List String),
      (∀ p ∈ order, p ≠ "perspective" ∧ p ≠ "openai") →
      moderateTextL tTox tSevere env order =
        ({ flagged := false, reasons := ["no provider configured"], provider := "none" }, []) ∧
      moderateTextL tTox tSevere env order = moderateTextL tTox tSevere env [] := by
  intro tT tS env order
  induction order with
  | nil => intro _; exact ⟨rfl, rfl⟩
  | cons p rest ih =>
    intro h
    have hp := h p (List.mem_cons_self p rest)
    have ihr := ih (fun q hq => h q (List.mem_cons_of_mem _ hq))
    have hstep : moderateTextL tT tS env (p :: rest) = moderateTextL tT tS env rest := by
      simp [moderateTextL, hp.1, hp.2]
    exact ⟨hstep.trans ihr.1, hstep.trans ihr.2⟩

/-- C9 (witness): the theorem applied to an order of two unknown identifiers. -/
theorem C9_witness :
    moderateTextL (mkRat 83 100) (mkRat 50 100)
        { perspective := none, openai := OpenAIOutcome.empty } ["billboard", "game"] =
      ({ flagged := false, reasons := ["no provider configured"], provider := "none" }, []) :=
  (C9_unknown_identifiers_skipped (mkRat 83 100) (mkRat 50 100)
    { perspective := none, openai := OpenAIOutcome.empty } ["billboard", "game"]
    (by decide)).1

/-- C5 (counterexample): the retry loop's termination is not guaranteed for
every sequence of service responses: seven consecutive 400 rejections each
naming an attribute that was never requested leave the six-element attribute
set untouched, so after more responses than the claimed bound (the size of
the requested set) the loop is still running with no terminal outcome. -/
theorem C5_counterexample :
    perspLoop
        (List.replicate 7
          { ok := false, status := 400, scores := ([] : AttrJson),
            badAttr := some "NOT_REQUESTED" })
        DEFAULT_ATTRS = none ∧
      DEFAULT_ATTRS.length <
        (List.replicate 7
          ({ ok := false, status := 400, scores := ([] : AttrJson),
             badAttr := some "NOT_REQUESTED" } : PerspResp)).length := by
  decide

/-- C5 (amended): the retry loop terminates within `attrs.length + 1`
responses whenever each attribute-not-supported rejection names an attribute
of the then-current request (which is how the live service answers): each
such rejection strictly shrinks the set, and once the set is empty the
adapter returns the all-zero map, not an error.  A rejection naming an
attribute outside the current request leaves the set unchanged, so against
such responses the loop re-issues the identical request indefinitely. -/
theorem C5_bounded_retry_termination :
    (∀ (resps : List PerspResp) (attrs : List String),
        followsAttrs resps attrs = true → attrs.length < resps.length →
        (perspLoop resps attrs).isSome = true) ∧
    (∀ resps : List PerspResp,
        perspLoop resps [] = some (PerspLoopOut.success zeroScoresM)) := by
  refine ⟨perspLoop_isSome_of_follows, ?_⟩
  intro resps
  cases resps <;> rfl

/-- C5 (witness): the amended theorem applied to a two-response sequence whose
first response succeeds. -/
theorem C5_witness :
    (perspLoop
        [{ ok := true, status := 200, scores := ([] : AttrJson), badAttr := none },
         { ok := true, status := 200, scores := ([] : AttrJson), badAttr := none }]
        ["TOXICITY"]).isSome = true :=
  C5_bounded_retry_termination.1
    [{ ok := true, status := 200, scores := ([] : AttrJson), badAttr := none },
     { ok := true, status := 200, scores := ([] : AttrJson), badAttr := none }]
    ["TOXICITY"] (by decide) (by decide)

/-- C6 (counterexample): the `moderator.mjs` adapter does not report
`Unavailable` on a non-success response that is not attribute-unsupported: a
429 makes `perspectiveScores` throw an `Error` (here the `.error` branch),
which crosses the adapter boundary to the top-level handler. -/
theorem C6_counterexample :
    perspectiveScoresMjsResp false 429 [] =
        Except.error ("Perspective error " ++ toString 429) ∧
      (perspectiveScoresMjsResp false 429 []).isOk = false :=
  ⟨rfl, rfl⟩

/-- C6 (amended): the two adapters differ: `getPerspectiveScores` in
`src/src/moderate.ts` reports `null` (Unavailable) on every non-success
response without throwing, while `perspectiveScores` in `src/moderator.mjs`
throws an `Error` carrying the status for any non-success non-attribute
response, and that exception escapes the adapter. -/
theorem C6_nonsuccess_response_behaviour :
    ∀ (hasKey : Bool) (json attr : AttrJson) (status : Nat),
      getPerspectiveScoresTS hasKey (FetchOut.resp false json) = Except.ok none ∧
      perspectiveScoresMjsResp false status attr =
        Except.error ("Perspective error " ++ toString status) := by
  intro hasKey json attr status
  refine ⟨?_, rfl⟩
  cases hasKey <;> rfl

/-- C7 (counterexample): resolved text is not hard-truncated to the cap for
the inline-text scheme: a `meow:text:` payload of 8001 characters is returned
whole, so the returned string's length is 8001, not the 8000 cap the http
branch uses. -/
theorem C7_counterexample :
    getTextFromUriMjs { fetch := fun _ => none }
        (strL "meow:text:" ++ List.replicate 8001 'a') =
      some (List.replicate 8001 'a') ∧
    8000 < (List.replicate 8001 'a').length ∧
    (List.replicate 8001 'a').length ≠ 8000 := by
  have hd : decodeURIComponentOpt (List.replicate 8001 'a') =
      some (List.replicate 8001 'a') :=
    decodeURIComponentOpt_of_not_mem _ (by
      intro hm
      exact absurd (List.eq_of_mem_replicate hm) (by decide))
  refine ⟨?_, ?_, ?_⟩
  · rw [getTextFromUriMjs_meow, hd]
  · rw [List.length_replicate]
    omega
  · rw [List.length_replicate]
    omega

/-- C7 (amended): only the fetched (`http(s)`/`ipfs`-via-gateway) path
truncates to the 8000-character cap; the inline `meow:text:` and
`data:text/plain;base64,` branches return the decoded payload whole,
untruncated. -/
theorem C7_truncation_by_scheme :
    (∀ (env : FetchEnv) (payload d : List Char),
        decodeURIComponentOpt payload = some d →
        getTextFromUriMjs env (strL "meow:text:" ++ payload) = some d) ∧
    (∀ (env : FetchEnv) (payload : List Char),
        getTextFromUriMjs env (strL "data:text/plain;base64," ++ payload) =
          some (b64ToUtf8 payload)) ∧
    (∀ (env : FetchEnv) (tail body : List Char),
        env.fetch (strL "http://" ++ tail) = some body →
        (jsTrim body).isEmpty = false →
        getTextFromUriMjs env (strL "http://" ++ tail) = some (body.take 8000) ∧
          (body.take 8000).length = min 8000 body.length) := by
  refine ⟨?_, ?_, ?_⟩
  · intro env payload d hd
    rw [getTextFromUriMjs_meow, hd]
  · intro env payload
    exact getTextFromUriMjs_data env payload
  · intro env tail body hf hb
    exact ⟨getTextFromUriMjs_http env tail body hf hb, List.length_take _ _⟩

/-- C7 (witness): the amended theorem's inline-text clause applied to a
percent-encoded payload. -/
theorem C7_witness :
    getTextFromUriMjs { fetch := fun _ => none }
        (strL "meow:text:" ++ strL "Hello%20World") = some (strL "Hello World") :=
  C7_truncation_by_scheme.1 { fetch := fun _ => none }
    (strL "Hello%20World") (strL "Hello World") (by decide)

/-- C8 (counterexample): in `src/moderator.mjs`, an inline-text payload that
fails percent-decoding is not returned raw: the `URIError` reaches the outer
catch and `getTextFromUri` returns `null`, silently dropping the content. -/
theorem C8_counterexample :
    getTextFromUriMjs { fetch := fun _ => none } (strL "meow:text:%") = none := by
  decide

/-- C8 (amended): the behaviour is variant-specific: `src/unnamed/part_004`
returns the raw payload unmodified when percent-decoding fails, while
`src/moderator.mjs` lets the decode error reach its outer catch and returns
`null`. -/
theorem C8_decode_failure_by_variant :
    ∀ (env : FetchEnv) (payload : List Char),
      decodeURIComponentOpt payload = none →
      getTextFromUriP4 env (strL "meow:text:" ++ payload) = some payload ∧
      getTextFromUriMjs env (strL "meow:text:" ++ payload) = none := by
  intro env payload h
  constructor
  · rw [getTextFromUriP4_meow, h]
    rfl
  · rw [getTextFromUriMjs_meow, h]

/-- C8 (witness): the amended theorem applied to the undecodable payload
`"%"`. -/
theorem C8_witness :
    getTextFromUriP4 { fetch := fun _ => none } (strL "meow:text:" ++ strL "%") =
        some (strL "%") ∧
      getTextFromUriMjs { fetch := fun _ => none } (strL "meow:text:" ++ strL "%") = none :=
  C8_decode_failure_by_variant { fetch := fun _ => none } (strL "%") (by decide)

/-- C10: every score record built from a successful Perspective response in
`src/src/moderate.ts` defines all seven requested attributes, any attribute
missing from the response defaulting to 0; a missing attribute therefore
cannot meet any positive threshold, so it can never cause a flag. -/
theorem C10_missing_attributes_default_zero :
    ∀ (data : AttrJson) (a : String), a ∈ SEVEN_ATTRS →
      scoreOfTS (buildScoresTS data) a = some ((data.lookup a).getD 0) ∧
      (data.lookup a = none →
        scoreOfTS (buildScoresTS data) a = some 0 ∧
        (∀ t v : ℚ, 0 < t → scoreOfTS (buildScoresTS data) a = some v → ¬ t ≤ v)) := by
  intro data a ha
  have hcases : a = "TOXICITY" ∨ a = "SEVERE_TOXICITY" ∨ a = "INSULT" ∨ a = "THREAT" ∨
      a = "IDENTITY_ATTACK" ∨ a = "SEXUALLY_EXPLICIT" ∨ a = "PROFANITY" := by
    simpa [SEVEN_ATTRS] using ha
  rcases hcases with rfl | rfl | rfl | rfl | rfl | rfl | rfl <;>
    · refine ⟨rfl, fun hnone => ⟨?_, ?_⟩⟩
      · simp [scoreOfTS, buildScoresTS, hnone]
      · intro t v ht hv
        have hv0 : v = 0 := by
          simp [scoreOfTS, buildScoresTS, hnone] at hv
          exact hv.symm
        intro hle
        rw [hv0] at hle
        exact absurd hle (not_le.mpr ht)

/-- C10 (witness): the theorem applied to a response that has a `TOXICITY`
score and omits `SEVERE_TOXICITY`. -/
theorem C10_witness :
    scoreOfTS (buildScoresTS [("TOXICITY", mkRat 99 100)]) "SEVERE_TOXICITY" = some 0 :=
  ((C10_missing_attributes_default_zero [("TOXICITY", mkRat 99 100)] "SEVERE_TOXICITY"
    (by decide)).2 (by decide)).1

end Meowt
